import Mathlib

set_option linter.unusedVariables false

/-!
Verification of rauth.session (src/rauth/session.py).

The Python 2 code is shallowly embedded: Python dicts become
insertion-ordered association lists of strings, byte strings become Lean
strings (the repository only manipulates ASCII data), code that can raise
returns Except values, and the runtime oracles of a request (the random
nonce, the Unix clock, datetime.utcnow) are explicit arguments.
-/

/-- A Python dict with string keys and values, modelled as an association
list; str(v) is applied to the one integer value (the OAuth timestamp)
before it is stored. The list order stands for the dict iteration order,
which in CPython 2 is an implementation-defined hash order, not the
insertion order this model uses: a statement about serialized output that
is meant to hold of the program must therefore be insensitive to the
order of the list (up to permutation). -/
abbrev PyDict := List (String × String)

/-- Membership test, k in d. -/
def dictHasKey (d : PyDict) (k : String) : Bool := d.any (fun kv => kv.1 = k)

/-- Lookup with a default, d.get(k, dflt); also the value returned by
d.pop(k) when the key is present. -/
def dictGetD (d : PyDict) (k : String) (dflt : String) : String :=
  match d.find? (fun kv => kv.1 = k) with
  | some kv => kv.2
  | none => dflt

/-- Assignment d[k] = v: replaces the value in place when the key exists,
otherwise appends the pair. -/
def dictInsert (d : PyDict) (k v : String) : PyDict :=
  if dictHasKey d k then d.map (fun kv => if kv.1 = k then (k, v) else kv)
  else d ++ [(k, v)]

/-- Removal part of d.pop(k). -/
def dictPop (d : PyDict) (k : String) : PyDict := d.filter (fun kv => kv.1 ≠ k)

/-- Merge d.update(e). -/
def dictUpdate (d e : PyDict) : PyDict :=
  e.foldl (fun acc kv => dictInsert acc kv.1 kv.2) d

/-- Defaulting d.setdefault(k, v). -/
def dictSetdefault (d : PyDict) (k v : String) : PyDict :=
  if dictHasKey d k then d else d ++ [(k, v)]

/-- Conversion dict(pairs): later values win for a repeated key. The
model keeps first-occurrence order; the CPython 2 dict iterates in hash
order instead, so downstream claims about re-serialized output are stated
only up to permutation of the pairs. -/
def dictFromPairs (pl : List (String × String)) : PyDict :=
  pl.foldl (fun acc kv => dictInsert acc kv.1 kv.2) []

/-- The characters Python 2 urllib never escapes (its always_safe set):
ASCII letters, digits, underscore, dot, dash. -/
def pySafeChar (ch : Char) : Bool :=
  ch.isAlphanum || ch = '_' || ch = '.' || ch = '-'

/-- Upper-case hex digit for a value below 16. -/
def hexDigitChar (n : Nat) : Char :=
  if n < 10 then Char.ofNat (48 + n) else Char.ofNat (55 + n)

/-- Percent escape of one byte, as percent plus two upper-case hex digits. -/
def percentEscape (ch : Char) : List Char :=
  ['%', hexDigitChar (ch.toNat / 16 % 16), hexDigitChar (ch.toNat % 16)]

/-- Encoder urllib.quote with its default safe characters "/". -/
def pyQuote (s : String) : String :=
  String.mk (s.data.flatMap (fun ch =>
    if pySafeChar ch || ch = '/' then [ch] else percentEscape ch))

/-- Encoder urllib.quote_plus on a character list (safe = ""): a space
becomes a plus, safe characters stay, everything else is percent-escaped. -/
def quotePlusChars (l : List Char) : List Char :=
  l.flatMap (fun ch =>
    if pySafeChar ch then [ch]
    else if ch = ' ' then ['+']
    else percentEscape ch)

/-- Join a list of chunks with a separator character. -/
def intercalateChar (c : Char) : List (List Char) → List Char
  | [] => []
  | [g] => g
  | g :: gs => g ++ c :: intercalateChar c gs

/-- One k=v chunk of an urlencode output. -/
def qsSeg (kv : String × String) : List Char :=
  quotePlusChars kv.1.data ++ '=' :: quotePlusChars kv.2.data

/-- Encoder urllib.urlencode on a dict: key and value are quote_plus
encoded, rendered k=v and joined with ampersands. -/
def urlencode (d : PyDict) : String :=
  String.mk (intercalateChar '&' (d.map qsSeg))

/-- Splitter str.split(sep) for a one-character separator: always returns
at least one (possibly empty) chunk. -/
def splitOnChar (c : Char) : List Char → List (List Char)
  | [] => [[]]
  | a :: as =>
    match splitOnChar c as with
    | [] => []
    | g :: gs => if a = c then [] :: g :: gs else (a :: g) :: gs

/-- Hex digit test used by urllib.unquote. -/
def isHexDig (ch : Char) : Bool :=
  ch.isDigit || ('A' ≤ ch && ch ≤ 'F') || ('a' ≤ ch && ch ≤ 'f')

/-- Value of a hex digit. -/
def hexVal (ch : Char) : Nat :=
  if ch.isDigit then ch.toNat - 48
  else if 'A' ≤ ch && ch ≤ 'F' then ch.toNat - 55
  else ch.toNat - 87

/-- Decoder urllib.unquote: decodes percent escapes made of two hex
digits and leaves malformed escapes untouched. -/
def unquoteChars : List Char → List Char
  | [] => []
  | ch :: rest =>
    if ch = '%' then
      match rest with
      | a :: b :: rest2 =>
        if isHexDig a && isHexDig b then
          Char.ofNat (16 * hexVal a + hexVal b) :: unquoteChars rest2
        else '%' :: unquoteChars (a :: b :: rest2)
      | r => '%' :: unquoteChars r
    else ch :: unquoteChars rest

/-- The replace of plus by space that parse_qsl applies before unquote. -/
def plusToSpace (l : List Char) : List Char :=
  l.map (fun ch => if ch = '+' then ' ' else ch)

/-- Python name_value.split(eq, 1): the chunk before the first equals
sign and everything after it, or none when there is no equals sign. -/
def splitFirstEq : List Char → Option (List Char × List Char)
  | [] => none
  | c :: cs =>
    if c = '=' then some ([], cs)
    else (splitFirstEq cs).map (fun pr => (c :: pr.1, pr.2))

/-- Handling of one chunk inside parse_qsl: chunks without an equals
sign and pairs whose value is blank are dropped, names and values are
plus- and percent-decoded. -/
def parseQsSeg (seg : List Char) : Option (String × String) :=
  match splitFirstEq seg with
  | none => none
  | some (n, v) =>
    if v.isEmpty then none
    else some (String.mk (unquoteChars (plusToSpace n)),
               String.mk (unquoteChars (plusToSpace v)))

/-- Parser urlparse.parse_qsl with default flags: splits on ampersand and
semicolon and processes each chunk with parseQsSeg. -/
def parse_qsl (s : String) : List (String × String) :=
  ((splitOnChar '&' s.data).flatMap (splitOnChar ';')).filterMap parseQsSeg

/-- Errors this code can raise. -/
inductive PyError
  | typeError (msg : String)
  | attributeError (msg : String)
  | valueError (msg : String)
deriving DecidableEq, Repr

/-- A params or data entry of req_kwargs: either a pre-encoded string or
a structured dict. -/
inductive ParamsVal
  | str (s : String)
  | dict (d : PyDict)
deriving DecidableEq, Repr

/-- The req_kwargs dictionary of a request call; a field is none when the
key is absent. The timeout float is represented as a rational (it is only
stored, never computed with). -/
structure ReqKwargs where
  timeout : Option ℚ := none
  headers : Option PyDict := none
  params : Option ParamsVal := none
  data : Option ParamsVal := none
deriving DecidableEq, Repr

/-- What is handed to the transport, requests.sessions.Session.request,
when no error is raised first. -/
structure PreparedRequest where
  method : String
  url : String
  kwargs : ReqKwargs
deriving DecidableEq, Repr

/-- Default timeouts (line 21): all three constants equal 300.0. -/
def OAUTH1_DEFAULT_TIMEOUT : ℚ := 300

/-- Default timeout for the OAuth2 session (line 21). -/
def OAUTH2_DEFAULT_TIMEOUT : ℚ := 300

/-- Default timeout for the Ofly session (line 21). -/
def OFLY_DEFAULT_TIMEOUT : ℚ := 300

/-- A signature producing object: a signing-method name and a sign
operation over method, url and request options. The Python sign also
receives the session itself; no claim below depends on that argument, so
it is omitted from the field type. -/
structure Signer where
  NAME : String
  sign : String → String → ReqKwargs → String

/-- Modelled from the spec: HmacSha1Signature is imported from
rauth.oauth, which is not part of this repository snapshot. The spec
fixes the default scheme as HMAC-SHA1, so the NAME is "HMAC-SHA1"; the
produced signature value is abstracted as a fixed placeholder because no
claim below depends on it. -/
def HmacSha1Signature : Signer :=
  { NAME := "HMAC-SHA1", sign := fun _ _ _ => "" }

/-- State of an OAuth1Session after construction (lines 68-91). The
signature field models the instance attribute: none means the attribute
was never assigned. -/
structure OAuth1Session where
  consumer_key : String
  consumer_secret : String
  access_token : Option String
  access_token_secret : Option String
  signature : Option Signer

/-- Protocol version constant (line 66). -/
def OAuth1Session.VERSION : String := "1.0"

/-- Constructor of OAuth1Session (lines 68-91). The signature attribute
is assigned only when the argument is None (lines 85-86 have no else
branch), so a caller-supplied signer is dropped and the attribute stays
unset. -/
def OAuth1Session.init (consumer_key consumer_secret : String)
    (access_token access_token_secret : Option String)
    (signature : Option Signer) : OAuth1Session :=
  { consumer_key := consumer_key
    consumer_secret := consumer_secret
    access_token := access_token
    access_token_secret := access_token_secret
    signature :=
      match signature with
      | none => some HmacSha1Signature
      | some _ => none }

/-- Body of _set_oauth_params (lines 170-180), given the signer read from
the signature attribute; the nonce, sha1(str(random())).hexdigest(), and
the Unix timestamp int(time()) are oracle arguments. -/
def setOauthParams (s : OAuth1Session) (sg : Signer) (nonce : String)
    (ts : Int) : PyDict :=
  let d := dictInsert [] "oauth_consumer_key" s.consumer_key
  let d := dictInsert d "oauth_nonce" nonce
  let d := dictInsert d "oauth_signature_method" sg.NAME
  let d := dictInsert d "oauth_timestamp" (toString ts)
  let d :=
    match s.access_token with
    | some t => dictInsert d "oauth_token" t
    | none => d
  dictInsert d "oauth_version" OAuth1Session.VERSION

/-- Body of _parse_optional_params (lines 142-168) for one reserved name:
takes and returns the oauth_params dict and req_kwargs. A params value
that is a non-empty pre-encoded string is decoded with parse_qsl and
turned into a dict; if the reserved name is a key it is popped into
oauth_params; a string params is re-encoded with urlencode at the end. A
data value that is a dict is treated the same way, but a pre-encoded data
string is never inspected (line 163 requires data not to be a string).
Both checks run in source order, so a value found in data overwrites one
found in params. -/
def parseOptionalParam (p : String) (op : PyDict) (rk : ReqKwargs) :
    PyDict × ReqKwargs :=
  let pstep : PyDict × Option ParamsVal :=
    match rk.params with
    | none => (op, none)
    | some (ParamsVal.dict d) =>
      if dictHasKey d p then
        (dictInsert op p (dictGetD d p ""), some (ParamsVal.dict (dictPop d p)))
      else (op, some (ParamsVal.dict d))
    | some (ParamsVal.str s) =>
      if s = "" then (op, some (ParamsVal.str ""))
      else
        let d := dictFromPairs (parse_qsl s)
        if dictHasKey d p then
          (dictInsert op p (dictGetD d p ""),
           some (ParamsVal.str (urlencode (dictPop d p))))
        else (op, some (ParamsVal.str (urlencode d)))
  let dstep : PyDict × Option ParamsVal :=
    match rk.data with
    | none => (pstep.1, none)
    | some (ParamsVal.str s) => (pstep.1, some (ParamsVal.str s))
    | some (ParamsVal.dict d) =>
      if dictHasKey d p then
        (dictInsert pstep.1 p (dictGetD d p ""),
         some (ParamsVal.dict (dictPop d p)))
      else (pstep.1, some (ParamsVal.dict d))
  (dstep.1, { rk with params := pstep.2, data := dstep.2 })

/-- The three reserved optional parameter names of the loop on line 118. -/
def reservedOauthParams : List String :=
  ["oauth_callback", "oauth_verifier", "oauth_version"]

/-- The loop on lines 117-119: one _parse_optional_params pass per
reserved name. -/
def extractOauthParams (op : PyDict) (rk : ReqKwargs) : PyDict × ReqKwargs :=
  reservedOauthParams.foldl (fun acc p => parseOptionalParam p acc.1 acc.2) (op, rk)

/-- Body of _get_auth_header (lines 182-190). Its realm parameter
defaults to None and the call site on line 130 passes no argument, so the
rendered realm is always the string "None"; parameter values are
percent-quoted with urllib.quote. -/
def getAuthHeader (op : PyDict) : String :=
  "OAuth realm=\"None\"" ++
    String.join (op.map (fun kv => "," ++ kv.1 ++ "=\"" ++ pyQuote kv.2 ++ "\""))

/-- Modelled from the spec: FORM_URLENCODED is imported from rauth.utils,
which is not part of this repository snapshot; the spec section 6 fixes
body injection to standard application/x-www-form-urlencoded. -/
def FORM_URLENCODED : String := "application/x-www-form-urlencoded"

/-- Python str.upper(), as used by method.upper() on line 131. -/
def pyUpper (s : String) : String := String.mk (s.data.map Char.toUpper)

/-- Timeout defaulting of line 110: req_kwargs.setdefault(timeout, 300). -/
def timeoutDefaulted (rk : ReqKwargs) : ReqKwargs :=
  { rk with timeout := some (rk.timeout.getD OAUTH1_DEFAULT_TIMEOUT) }

/-- Injection step of OAuth1Session.request (lines 127-138): exactly one
branch runs. With header_auth the Authorization header is merged in; for
POST and PUT the Content-Type header is defaulted and oauth_params merged
into data; otherwise oauth_params is merged into params. Calling update
on a pre-encoded string raises AttributeError. -/
def injectOauth (method : String) (header_auth : Bool) (op2 : PyDict)
    (rk1 : ReqKwargs) : Except PyError ReqKwargs :=
  if header_auth then
    Except.ok { rk1 with
      headers := some (dictInsert (rk1.headers.getD []) "Authorization" (getAuthHeader op2)) }
  else if pyUpper method = "POST" ∨ pyUpper method = "PUT" then
    let headers2 := dictSetdefault (rk1.headers.getD []) "Content-Type" FORM_URLENCODED
    match rk1.data.getD (ParamsVal.dict []) with
    | ParamsVal.str _ =>
      Except.error (PyError.attributeError "str object has no attribute update")
    | ParamsVal.dict d =>
      Except.ok { rk1 with headers := some headers2,
                           data := some (ParamsVal.dict (dictUpdate d op2)) }
  else
    match rk1.params.getD (ParamsVal.dict []) with
    | ParamsVal.str _ =>
      Except.error (PyError.attributeError "str object has no attribute update")
    | ParamsVal.dict d =>
      Except.ok { rk1 with params := some (ParamsVal.dict (dictUpdate d op2)) }

/-- Body of OAuth1Session.request (lines 93-140): defaults the timeout,
reads the signature attribute (AttributeError when it was never
assigned), builds oauth_params, extracts reserved caller parameters,
signs, injects, and forwards method, url and the mutated req_kwargs to
the transport. The realm argument is accepted but never used: line 130
calls _get_auth_header without passing it. -/
def OAuth1Session.request (s : OAuth1Session) (nonce : String) (ts : Int)
    (method url : String) (header_auth : Bool) (realm : Option String)
    (req_kwargs : ReqKwargs) : Except PyError PreparedRequest :=
  let rk : ReqKwargs := timeoutDefaulted req_kwargs
  match s.signature with
  | none =>
    Except.error (PyError.attributeError "OAuth1Session object has no attribute signature")
  | some sg =>
    let pr := extractOauthParams (setOauthParams s sg nonce ts) rk
    (injectOauth method header_auth
        (dictInsert pr.1 "oauth_signature" (sg.sign method url pr.2)) pr.2).map
      (fun rk2 => { method := method, url := url, kwargs := rk2 })

/-- A datetime.datetime value as returned by datetime.utcnow(); the
microsecond field satisfies microsecond < 1000000 in Python. -/
structure PyDatetime where
  year : Nat
  month : Nat
  day : Nat
  hour : Nat
  minute : Nat
  second : Nat
  microsecond : Nat
deriving DecidableEq, Repr

/-- Insertion of a string into an ascending list, used to model Python
sorted(); String order compares code points, which agrees with Python
byte order on the ASCII data used here. -/
def insertSorted (k : String) : List String → List String
  | [] => [k]
  | a :: as => if k ≤ a then k :: a :: as else a :: insertSorted k as

/-- Python sorted() on a list of strings. -/
def pySorted (l : List String) : List String := l.foldr insertSorted []

/-- The inner helper param_sorting of OflySession.sign (lines 351-355):
keys sorted ascending, each rendered k=v, joined with ampersands. -/
def param_sorting (params : PyDict) : String :=
  String.mk (intercalateChar '&' ((pySorted (params.map Prod.fst)).map
    (fun k => k.data ++ '=' :: (dictGetD params k "").data)))

/-- Two-digit zero-padded decimal, for the strftime fields. -/
def pad2 (n : Nat) : String :=
  if n < 10 then "0" ++ Nat.repr n else Nat.repr n

/-- Four-digit zero-padded decimal, for the strftime year. -/
def pad4 (n : Nat) : String :=
  if n < 10 then "000" ++ Nat.repr n
  else if n < 100 then "00" ++ Nat.repr n
  else if n < 1000 then "0" ++ Nat.repr n
  else Nat.repr n

/-- Result of now.strftime for the directives of the fixed Ofly format up
to the seconds field. -/
def strftimeDatePart (now : PyDatetime) : String :=
  pad4 now.year ++ "-" ++ pad2 now.month ++ "-" ++ pad2 now.day ++ "T" ++
    pad2 now.hour ++ ":" ++ pad2 now.minute ++ ":" ++ pad2 now.second

/-- The oflyTimestamp text that the format expressions of OflySession.sign
spell out (lines 357-360 and the strftime on line 363): the format string
interpolates milliseconds = now.microsecond / 1000 (Python 2 integer
division) with no zero padding, then strftime fills the date directives
and leaves the interpolated fractional part as literal text. This
strftime is dead code: the ofly_params literal evaluates
hash_meth.upper() on line 362 and raises before reaching it, so no call
ever produces this value; the definition states what the formatting text
would yield, for the C9 divergence. -/
def oflyTimestampString (now : PyDatetime) : String :=
  strftimeDatePart now ++ "." ++ Nat.repr (now.microsecond / 1000) ++ "Z"

/-- The signature base string construction that lines 365-374 of
OflySession.sign spell out, given the already-split url path and both
parameter dicts: the sorted caller-parameter string and a trailing
ampersand are appended only when that string is non-empty. These lines
are dead code: every call to sign raises at line 349 or at line 362
first, so no call computes a base string; the definition states what the
construction text would yield, for the C3 divergence. -/
def signatureBaseString (app_secret url_path : String)
    (params ofly_params : PyDict) : String :=
  let base := app_secret ++ url_path ++ "?"
  let sorted_params := param_sorting params
  (if sorted_params.length ≠ 0 then base ++ sorted_params ++ "&" else base) ++
    param_sorting ofly_params

/-- The two digest constructors sha1 and md5 that lines 344-347 rebind
hash_meth to. -/
inductive HashFn
  | sha1F
  | md5F
deriving DecidableEq, Repr

/-- Static method OflySession.sign (lines 333-379). The hash_meth
parameter holds whatever the caller passed positionally in fourth
position, so it may be a dict (see OflySession.request). When it is
neither the string sha1 nor the string md5, line 349 raises TypeError.
Otherwise hash_meth is rebound to the digest function (lines 345, 347);
after the timestamp computations of lines 357-360, the ofly_params dict
literal on lines 361-363 evaluates hash_meth.upper() on that function
object, which raises AttributeError, so the canonicalization and digest
of lines 365-379 are never reached on any input. -/
def OflySession.sign (url app_id app_secret : String) (hash_meth : ParamsVal)
    (params : PyDict) (now : PyDatetime) : Except PyError (String × PyDict) :=
  let selected : Except PyError HashFn :=
    match hash_meth with
    | ParamsVal.str s =>
      if s = "sha1" then Except.ok HashFn.sha1F
      else if s = "md5" then Except.ok HashFn.md5F
      else Except.error (PyError.typeError "hash_meth must be one of sha1, md5")
    | ParamsVal.dict _ =>
      Except.error (PyError.typeError "hash_meth must be one of sha1, md5")
  match selected with
  | Except.error e => Except.error e
  | Except.ok _hash_fn =>
    let milliseconds := now.microsecond / 1000
    let time_format := "%Y-%m-%dT%H:%M:%S." ++ Nat.repr milliseconds ++ "Z"
    Except.error
      (PyError.attributeError "builtin_function_or_method object has no attribute upper")

/-- Body of OflySession.request (lines 307-331): defaults params, headers
and timeout, then calls OflySession.sign with req_kwargs[params] passed
positionally into the hash_meth slot (line 321-324), so sign never
receives the caller parameters as its params collector. Were sign to
return, line 326 would call dict.update with the returned string, which
raises (ValueError on a dict, AttributeError on a string params). -/
def OflySession.request (app_id app_secret : String) (method url : String)
    (header_auth : Bool) (req_kwargs : ReqKwargs) (now : PyDatetime) :
    Except PyError PreparedRequest :=
  let params0 := req_kwargs.params.getD (ParamsVal.dict [])
  let headers0 := req_kwargs.headers.getD []
  let rk : ReqKwargs :=
    { req_kwargs with params := some params0, headers := some headers0,
                      timeout := some (req_kwargs.timeout.getD OFLY_DEFAULT_TIMEOUT) }
  match OflySession.sign url app_id app_secret params0 [] now with
  | Except.error e => Except.error e
  | Except.ok (signedParams, oflyHeaders) =>
    match params0 with
    | ParamsVal.str _ =>
      Except.error (PyError.attributeError "str object has no attribute update")
    | ParamsVal.dict _ =>
      Except.error (PyError.valueError "dictionary update sequence element is not a pair")

/-- Caller parameters whose keys and values use only characters that
urllib keeps verbatim and whose values are non-blank: for these,
urlencode output is in canonical form and parse_qsl inverts it. -/
def SafePairs (pl : List (String × String)) : Prop :=
  ∀ kv ∈ pl, (∀ ch ∈ kv.1.data, pySafeChar ch = true) ∧
             (∀ ch ∈ kv.2.data, pySafeChar ch = true) ∧ kv.2 ≠ ""

instance (pl : List (String × String)) : Decidable (SafePairs pl) := by
  unfold SafePairs
  infer_instance

/-! Helper lemmas about the codec and the dict model. -/

theorem pySafeChar_ne_amp {ch : Char} (h : pySafeChar ch = true) : ch ≠ '&' := by
  rintro rfl; revert h; decide

theorem pySafeChar_ne_semi {ch : Char} (h : pySafeChar ch = true) : ch ≠ ';' := by
  rintro rfl; revert h; decide

theorem pySafeChar_ne_eq {ch : Char} (h : pySafeChar ch = true) : ch ≠ '=' := by
  rintro rfl; revert h; decide

theorem pySafeChar_ne_plus {ch : Char} (h : pySafeChar ch = true) : ch ≠ '+' := by
  rintro rfl; revert h; decide

theorem pySafeChar_ne_pct {ch : Char} (h : pySafeChar ch = true) : ch ≠ '%' := by
  rintro rfl; revert h; decide

theorem quotePlus_safe (l : List Char) (h : ∀ ch ∈ l, pySafeChar ch = true) :
    quotePlusChars l = l := by
  induction l with
  | nil => rfl
  | cons a as ih =>
    have ha : pySafeChar a = true := h a (by simp)
    have ih2 : quotePlusChars as = as := ih (fun ch hch => h ch (by simp [hch]))
    unfold quotePlusChars at ih2 ⊢
    rw [List.flatMap_cons, ih2]
    simp [ha]

theorem plusToSpace_id (l : List Char) (h : ∀ ch ∈ l, ch ≠ '+') :
    plusToSpace l = l := by
  induction l with
  | nil => rfl
  | cons a as ih =>
    have ha : a ≠ '+' := h a (by simp)
    have ih2 := ih (fun ch hch => h ch (by simp [hch]))
    simp only [plusToSpace, List.map_cons] at ih2 ⊢
    simp [ha, ih2]

theorem unquoteChars_cons_ne (a : Char) (as : List Char) (ha : a ≠ '%') :
    unquoteChars (a :: as) = a :: unquoteChars as := by
  cases as with
  | nil => simp [unquoteChars, ha]
  | cons b bs =>
    cases bs with
    | nil => simp [unquoteChars, ha]
    | cons c cs => simp [unquoteChars, ha]

theorem unquote_id (l : List Char) (h : ∀ ch ∈ l, ch ≠ '%') :
    unquoteChars l = l := by
  induction l with
  | nil => rfl
  | cons a as ih =>
    have ha : a ≠ '%' := h a (by simp)
    have ih2 := ih (fun ch hch => h ch (by simp [hch]))
    rw [unquoteChars_cons_ne a as ha, ih2]

theorem splitOnChar_ne_nil (c : Char) (l : List Char) : splitOnChar c l ≠ [] := by
  induction l with
  | nil => simp [splitOnChar]
  | cons a as ih =>
    cases hs : splitOnChar c as with
    | nil => exact absurd hs ih
    | cons g gs =>
      rw [splitOnChar, hs]
      by_cases hac : a = c <;> simp [hac]

theorem splitOnChar_no_sep (c : Char) (g : List Char) (h : c ∉ g) :
    splitOnChar c g = [g] := by
  induction g with
  | nil => rfl
  | cons a as ih =>
    have ha : a ≠ c := by rintro rfl; exact h (by simp)
    have ih2 : splitOnChar c as = [as] := ih (fun hmem => h (by simp [hmem]))
    rw [splitOnChar, ih2]
    simp [ha]

theorem splitOnChar_append (c : Char) (g rest : List Char) (h : c ∉ g) :
    splitOnChar c (g ++ c :: rest) = g :: splitOnChar c rest := by
  induction g with
  | nil =>
    rw [List.nil_append, splitOnChar]
    cases hs : splitOnChar c rest with
    | nil => exact absurd hs (splitOnChar_ne_nil c rest)
    | cons g0 gs0 => simp
  | cons a as ih =>
    have ha : a ≠ c := by rintro rfl; exact h (by simp)
    have ih2 := ih (fun hmem => h (by simp [hmem]))
    rw [List.cons_append, splitOnChar, ih2]
    simp [ha]

theorem splitOnChar_intercalate (c : Char) (gs : List (List Char))
    (hne : gs ≠ []) (h : ∀ g ∈ gs, c ∉ g) :
    splitOnChar c (intercalateChar c gs) = gs := by
  induction gs with
  | nil => exact absurd rfl hne
  | cons g t ih =>
    cases t with
    | nil =>
      rw [intercalateChar]
      exact splitOnChar_no_sep c g (h g (by simp))
    | cons g2 t2 =>
      rw [intercalateChar, splitOnChar_append c g _ (h g (by simp))]
      rw [ih (List.cons_ne_nil g2 t2) (fun x hx => h x (by simp [hx]))]
      simp

theorem splitFirstEq_append (k v : List Char) (h : '=' ∉ k) :
    splitFirstEq (k ++ '=' :: v) = some (k, v) := by
  induction k with
  | nil => rw [List.nil_append, splitFirstEq]; simp
  | cons a as ih =>
    have ha : a ≠ '=' := by rintro rfl; exact h (by simp)
    have ih2 := ih (fun hmem => h (by simp [hmem]))
    rw [List.cons_append, splitFirstEq, if_neg ha, ih2]
    rfl

theorem string_ne_empty_iff (s : String) : s ≠ "" ↔ s.data ≠ [] := by
  constructor
  · intro h hd
    refine h ?_
    cases s with
    | mk d => cases hd; rfl
  · intro h hs
    refine h ?_
    rw [hs]

theorem dictHasKey_iff (d : PyDict) (k : String) :
    dictHasKey d k = true ↔ k ∈ d.map Prod.fst := by
  unfold dictHasKey
  rw [List.any_eq_true]
  constructor
  · rintro ⟨kv, hmem, hk⟩
    exact List.mem_map.mpr ⟨kv, hmem, by simpa using hk⟩
  · intro hk
    rcases List.mem_map.mp hk with ⟨kv, hmem, rfl⟩
    exact ⟨kv, hmem, by simp⟩

theorem dictHasKey_of_mem {d : PyDict} {k v : String} (h : (k, v) ∈ d) :
    dictHasKey d k = true := by
  unfold dictHasKey
  rw [List.any_eq_true]
  exact ⟨(k, v), h, by simp⟩

theorem dictInsert_new (d : PyDict) (k v : String) (h : k ∉ d.map Prod.fst) :
    dictInsert d k v = d ++ [(k, v)] := by
  have hk : ¬ dictHasKey d k = true := fun hc => h ((dictHasKey_iff d k).mp hc)
  simp [dictInsert, hk]

theorem dictFromPairs_aux (pl : List (String × String)) (acc : PyDict)
    (h : (acc.map Prod.fst ++ pl.map Prod.fst).Nodup) :
    pl.foldl (fun a kv => dictInsert a kv.1 kv.2) acc = acc ++ pl := by
  induction pl generalizing acc with
  | nil => simp
  | cons kv t ih =>
    have hnd := List.nodup_append.mp (by simpa using h)
    have hk : kv.1 ∉ acc.map Prod.fst := by
      intro hmem
      exact (hnd.2.2 hmem) (by simp)
    rw [List.foldl_cons, dictInsert_new acc kv.1 kv.2 hk]
    rw [ih (acc ++ [kv]) (by simpa [List.append_assoc] using h)]
    simp

theorem dictFromPairs_nodup (pl : List (String × String))
    (h : (pl.map Prod.fst).Nodup) : dictFromPairs pl = pl := by
  have := dictFromPairs_aux pl [] (by simpa using h)
  simpa [dictFromPairs] using this

theorem dictGetD_mem (pl : PyDict) (k v dflt : String)
    (hnd : (pl.map Prod.fst).Nodup) (hm : (k, v) ∈ pl) :
    dictGetD pl k dflt = v := by
  induction pl with
  | nil => cases hm
  | cons kv t ih =>
    rcases List.mem_cons.mp hm with heq | hmem
    · subst heq
      simp [dictGetD, List.find?]
    · have hnd' : (kv.1 :: t.map Prod.fst).Nodup := by simpa using hnd
      have hkmem : k ∈ t.map Prod.fst := List.mem_map.mpr ⟨(k, v), hmem, rfl⟩
      have hne : ¬ (kv.1 = k) := by
        intro he
        have hhead := (List.nodup_cons.mp hnd').1
        rw [he] at hhead
        exact hhead hkmem
      have hfind : (kv.1 = k : Bool) = false := by simpa using hne
      simp only [dictGetD, List.find?]
      rw [hfind]
      exact ih (List.nodup_cons.mp hnd').2 hmem

theorem qsSeg_safe {kv : String × String}
    (hk : ∀ ch ∈ kv.1.data, pySafeChar ch = true)
    (hv : ∀ ch ∈ kv.2.data, pySafeChar ch = true) :
    qsSeg kv = kv.1.data ++ '=' :: kv.2.data := by
  unfold qsSeg
  rw [quotePlus_safe _ hk, quotePlus_safe _ hv]

theorem parseQsSeg_qsSeg (kv : String × String)
    (hk : ∀ ch ∈ kv.1.data, pySafeChar ch = true)
    (hv : ∀ ch ∈ kv.2.data, pySafeChar ch = true)
    (hvne : kv.2 ≠ "") :
    parseQsSeg (qsSeg kv) = some kv := by
  have h1 := splitFirstEq_append kv.1.data kv.2.data
    (fun hmem => pySafeChar_ne_eq (hk '=' hmem) rfl)
  have hvd : kv.2.data ≠ [] := (string_ne_empty_iff kv.2).mp hvne
  rw [qsSeg_safe hk hv]
  simp only [parseQsSeg, h1]
  rw [if_neg (by simpa [List.isEmpty_iff] using hvd)]
  rw [plusToSpace_id _ (fun ch hch => pySafeChar_ne_plus (hk ch hch)),
      plusToSpace_id _ (fun ch hch => pySafeChar_ne_plus (hv ch hch)),
      unquote_id _ (fun ch hch => pySafeChar_ne_pct (hk ch hch)),
      unquote_id _ (fun ch hch => pySafeChar_ne_pct (hv ch hch))]

theorem flatMap_split_semi (l : List (List Char))
    (h : ∀ g ∈ l, splitOnChar ';' g = [g]) :
    l.flatMap (splitOnChar ';') = l := by
  induction l with
  | nil => rfl
  | cons g t ih =>
    rw [List.flatMap_cons, h g (by simp), ih (fun x hx => h x (by simp [hx]))]
    rfl

theorem filterMap_parseQsSeg (pl : List (String × String)) (h : SafePairs pl) :
    (pl.map qsSeg).filterMap parseQsSeg = pl := by
  induction pl with
  | nil => rfl
  | cons kv t ih =>
    have hkv := h kv (by simp)
    rw [List.map_cons, List.filterMap_cons,
        parseQsSeg_qsSeg kv hkv.1 hkv.2.1 hkv.2.2]
    rw [ih (fun x hx => h x (by simp [hx]))]

/-- For canonical input, parse_qsl inverts urlencode. -/
theorem parse_urlencode (pl : List (String × String)) (h : SafePairs pl) :
    parse_qsl (urlencode pl) = pl := by
  cases pl with
  | nil => rfl
  | cons kv0 t0 =>
    have hamp : ∀ g ∈ (kv0 :: t0).map qsSeg, '&' ∉ g := by
      intro g hg hmem
      rcases List.mem_map.mp hg with ⟨kv, hkv, rfl⟩
      rcases h kv hkv with ⟨hk, hv, _⟩
      rw [qsSeg_safe hk hv] at hmem
      rcases List.mem_append.mp hmem with hm | hm
      · exact pySafeChar_ne_amp (hk _ hm) rfl
      · rcases List.mem_cons.mp hm with he | hm2
        · exact absurd he (by decide)
        · exact pySafeChar_ne_amp (hv _ hm2) rfl
    have hsemi : ∀ g ∈ (kv0 :: t0).map qsSeg, splitOnChar ';' g = [g] := by
      intro g hg
      refine splitOnChar_no_sep ';' g ?_
      intro hmem
      rcases List.mem_map.mp hg with ⟨kv, hkv, rfl⟩
      rcases h kv hkv with ⟨hk, hv, _⟩
      rw [qsSeg_safe hk hv] at hmem
      rcases List.mem_append.mp hmem with hm | hm
      · exact pySafeChar_ne_semi (hk _ hm) rfl
      · rcases List.mem_cons.mp hm with he | hm2
        · exact absurd he (by decide)
        · exact pySafeChar_ne_semi (hv _ hm2) rfl
    show parse_qsl (urlencode (kv0 :: t0)) = kv0 :: t0
    unfold parse_qsl urlencode
    rw [show (String.mk (intercalateChar '&' ((kv0 :: t0).map qsSeg))).data
          = intercalateChar '&' ((kv0 :: t0).map qsSeg) from rfl]
    rw [splitOnChar_intercalate '&' _ (by simp) hamp]
    rw [flatMap_split_semi _ hsemi]
    exact filterMap_parseQsSeg _ h

theorem insertSorted_ne_nil (k : String) (l : List String) :
    insertSorted k l ≠ [] := by
  cases l with
  | nil => simp [insertSorted]
  | cons a as =>
    unfold insertSorted
    split <;> simp

theorem pySorted_ne_nil (l : List String) (h : l ≠ []) : pySorted l ≠ [] := by
  cases l with
  | nil => exact absurd rfl h
  | cons a as => exact insertSorted_ne_nil a (pySorted as)

theorem param_sorting_length_ne (d : PyDict) (h : d ≠ []) :
    (param_sorting d).length ≠ 0 := by
  suffices hll : intercalateChar '&' ((pySorted (d.map Prod.fst)).map
      (fun k => k.data ++ '=' :: (dictGetD d k "").data)) ≠ [] by
    intro h0
    exact hll (List.length_eq_zero.mp h0)
  cases hsk : pySorted (d.map Prod.fst) with
  | nil =>
    exact absurd hsk (pySorted_ne_nil _ (by simpa using h))
  | cons k0 rest =>
    cases rest with
    | nil =>
      rw [List.map_cons, List.map_nil, intercalateChar]
      simp
    | cons k1 rest2 =>
      rw [List.map_cons, intercalateChar]
      all_goals simp

theorem ofly_sign_isError (url app_id app_secret : String) (hm : ParamsVal)
    (params : PyDict) (now : PyDatetime) :
    ∃ e, OflySession.sign url app_id app_secret hm params now = Except.error e := by
  cases hm with
  | dict d =>
    exact ⟨PyError.typeError "hash_meth must be one of sha1, md5", rfl⟩
  | str s =>
    by_cases h1 : s = "sha1"
    · exact ⟨PyError.attributeError
        "builtin_function_or_method object has no attribute upper",
        by simp [OflySession.sign, h1]⟩
    · by_cases h2 : s = "md5"
      · exact ⟨PyError.attributeError
          "builtin_function_or_method object has no attribute upper",
          by simp [OflySession.sign, h1, h2]⟩
      · exact ⟨PyError.typeError "hash_meth must be one of sha1, md5",
          by simp [OflySession.sign, h1, h2]⟩

/-- C3 (code bug): no call to OflySession.sign ever computes a signature
base string: for a valid hash method the ofly_params literal evaluates
hash_meth.upper() on the digest function and raises AttributeError at
line 362 before lines 365-374 run (first part, at the failing input; any
other hash method raises TypeError even earlier). The base-string
construction those lines spell out, modeled standalone as
signatureBaseString, does have exactly the claimed shape, with no leading
ampersand when the caller parameters are empty (second and third parts). -/
theorem c3_code_bug :
    (OflySession.sign "http://example.com/res" "app" "secret"
        (ParamsVal.str "sha1") [("format", "json")] ⟨2021, 5, 1, 12, 0, 0, 123000⟩ =
      Except.error (PyError.attributeError
        "builtin_function_or_method object has no attribute upper")) ∧
    (∀ app_secret url_path : String, ∀ params ofly_params : PyDict,
      signatureBaseString app_secret url_path params ofly_params =
        app_secret ++ url_path ++ "?" ++
          (if params = [] then "" else param_sorting params ++ "&") ++
          param_sorting ofly_params) ∧
    (∀ app_secret url_path : String, ∀ ofly_params : PyDict,
      signatureBaseString app_secret url_path [] ofly_params =
        app_secret ++ url_path ++ "?" ++ param_sorting ofly_params) := by
  have main : ∀ app_secret url_path : String, ∀ params ofly_params : PyDict,
      signatureBaseString app_secret url_path params ofly_params =
        app_secret ++ url_path ++ "?" ++
          (if params = [] then "" else param_sorting params ++ "&") ++
          param_sorting ofly_params := by
    intro a p params ofly
    simp only [signatureBaseString]
    split
    case isTrue h =>
      have hp : params ≠ [] := by
        rintro rfl
        exact h (by decide)
      rw [if_neg hp]
      simp [String.append_assoc]
    case isFalse h =>
      have hp : params = [] := by
        by_contra hc
        exact h (param_sorting_length_ne params hc)
      subst hp
      rw [if_pos rfl]
      simp [String.append_assoc]
  refine ⟨rfl, main, fun a p ofly => ?_⟩
  rw [main a p [] ofly]
  simp [String.append_assoc]

/-- C4 (code bug): for hashMethod sha1 or md5, OflySession.sign never
returns the protocol-parameter mapping: after rebinding hash_meth to the
digest function, line 362 calls hash_meth.upper() on that function object
and raises AttributeError. -/
theorem c4_code_bug :
    (∀ url app_id app_secret params now,
      OflySession.sign url app_id app_secret (ParamsVal.str "sha1") params now =
        Except.error (PyError.attributeError
          "builtin_function_or_method object has no attribute upper")) ∧
    (∀ url app_id app_secret params now,
      OflySession.sign url app_id app_secret (ParamsVal.str "md5") params now =
        Except.error (PyError.attributeError
          "builtin_function_or_method object has no attribute upper")) := by
  constructor <;> intro url app_id app_secret params now <;> rfl

/-- C8: a hashMethod other than sha1 and md5 makes OflySession.sign raise
TypeError from its first statement, before any parameter
canonicalization and before any network activity. -/
theorem c8_unsupported_hash (url app_id app_secret s : String)
    (params : PyDict) (now : PyDatetime)
    (h1 : s ≠ "sha1") (h2 : s ≠ "md5") :
    OflySession.sign url app_id app_secret (ParamsVal.str s) params now =
      Except.error (PyError.typeError "hash_meth must be one of sha1, md5") := by
  simp [OflySession.sign, h1, h2]

/-- Witness for C8 at hashMethod sha256. -/
theorem c8_unsupported_hash_witness :
    ("sha256" ≠ "sha1") ∧ ("sha256" ≠ "md5") ∧
    OflySession.sign "http://example.com/path" "app" "secret"
        (ParamsVal.str "sha256") [] ⟨2021, 5, 1, 12, 0, 0, 0⟩ =
      Except.error (PyError.typeError "hash_meth must be one of sha1, md5") :=
  ⟨by decide, by decide,
    c8_unsupported_hash "http://example.com/path" "app" "secret" "sha256"
      [] ⟨2021, 5, 1, 12, 0, 0, 0⟩ (by decide) (by decide)⟩

/-- C9 (code bug): no call to OflySession.sign ever produces an
oflyTimestamp value: at the failing input (hashMethod sha1, utcnow at
5000 microseconds) the ofly_params literal raises AttributeError at
hash_meth.upper() on line 362, before the strftime on line 363 runs
(first part). Moreover the formatting text of lines 357-360 interpolates
the integer milliseconds with no zero padding, so even it would yield the
single fractional digit 5 at this instant, not the three digits 005 the
claim requires (second and third parts). -/
theorem c9_code_bug :
    (OflySession.sign "http://example.com/path" "app" "secret"
        (ParamsVal.str "sha1") [] ⟨2021, 5, 1, 12, 0, 0, 5000⟩ =
      Except.error (PyError.attributeError
        "builtin_function_or_method object has no attribute upper")) ∧
    oflyTimestampString ⟨2021, 5, 1, 12, 0, 0, 5000⟩ = "2021-05-01T12:00:00.5Z" ∧
    "2021-05-01T12:00:00.5Z" ≠ "2021-05-01T12:00:00.005Z" := by
  refine ⟨rfl, by decide, by decide⟩

/-- C6 (code bug): OflySession.request passes req_kwargs params
positionally into the hash_meth slot of sign, so every request raises
before anything is merged or forwarded to the transport; with dict (or
absent) params the error is the TypeError from the hash-method check. -/
theorem c6_code_bug :
    (OflySession.request "app" "secret" "GET" "http://example.com/path"
        false {} ⟨2021, 5, 1, 12, 0, 0, 0⟩ =
      Except.error (PyError.typeError "hash_meth must be one of sha1, md5")) ∧
    (∀ app_id app_secret method url header_auth rk now,
      (OflySession.request app_id app_secret method url header_auth rk now).isOk
        = false) := by
  constructor
  · rfl
  · intro app_id app_secret method url header_auth rk now
    obtain ⟨e, he⟩ := ofly_sign_isError url app_id app_secret
      (rk.params.getD (ParamsVal.dict [])) [] now
    simp [OflySession.request, he, Except.isOk, Except.toBool]

/-- C2 (code bug): request accepts a realm argument but line 130 calls
_get_auth_header without passing it, so the Authorization header always
renders realm="None"; here the caller passes realm myrealm and the
merged header still carries None, followed by one ,name="quoted value"
chunk per protocol parameter. -/
theorem c2_code_bug :
    OAuth1Session.request (OAuth1Session.init "key" "secret" none none none)
        "abc" 0 "GET" "http://example.com/res" true (some "myrealm") {} =
      Except.ok
        { method := "GET", url := "http://example.com/res",
          kwargs :=
            { timeout := some 300,
              headers := some [("Authorization",
                "OAuth realm=\"None\",oauth_consumer_key=\"key\",oauth_nonce=\"abc\",oauth_signature_method=\"HMAC-SHA1\",oauth_timestamp=\"0\",oauth_version=\"1.0\",oauth_signature=\"\"")],
              params := none,
              data := none } } := by
  rfl

/-- C5 (code bug): a session constructed with a caller-supplied signer
never stores it (lines 85-86 have no else branch), so every request on
such a session raises AttributeError when reading the signature
attribute, instead of signing with the supplied signer. -/
theorem c5_code_bug (sg : Signer) (nonce : String) (ts : Int)
    (method url : String) (header_auth : Bool) (realm : Option String)
    (rk : ReqKwargs) :
    OAuth1Session.request
        (OAuth1Session.init "key" "secret" none none (some sg))
        nonce ts method url header_auth realm rk =
      Except.error (PyError.attributeError
        "OAuth1Session object has no attribute signature") := by
  rfl

theorem parseOptionalParam_str_shape (p : String) (op : PyDict) (rk : ReqKwargs)
    (s : String) (h : rk.params = some (ParamsVal.str s)) :
    ∃ s2, ((parseOptionalParam p op rk).2).params = some (ParamsVal.str s2) := by
  by_cases hs : s = ""
  · exact ⟨"", by simp [parseOptionalParam, h, hs]⟩
  · by_cases hk : dictHasKey (dictFromPairs (parse_qsl s)) p
    · exact ⟨urlencode (dictPop (dictFromPairs (parse_qsl s)) p),
        by simp [parseOptionalParam, h, hs, hk]⟩
    · exact ⟨urlencode (dictFromPairs (parse_qsl s)),
        by simp [parseOptionalParam, h, hs, hk]⟩

theorem extract_str_shape (op : PyDict) (rk : ReqKwargs) (s : String)
    (h : rk.params = some (ParamsVal.str s)) :
    ∃ s3, ((extractOauthParams op rk).2).params = some (ParamsVal.str s3) := by
  obtain ⟨s1, h1⟩ := parseOptionalParam_str_shape "oauth_callback" op rk s h
  obtain ⟨s2, h2⟩ := parseOptionalParam_str_shape "oauth_verifier"
    (parseOptionalParam "oauth_callback" op rk).1
    (parseOptionalParam "oauth_callback" op rk).2 s1 h1
  obtain ⟨s3, h3⟩ := parseOptionalParam_str_shape "oauth_version"
    (parseOptionalParam "oauth_verifier" (parseOptionalParam "oauth_callback" op rk).1
      (parseOptionalParam "oauth_callback" op rk).2).1
    (parseOptionalParam "oauth_verifier" (parseOptionalParam "oauth_callback" op rk).1
      (parseOptionalParam "oauth_callback" op rk).2).2 s2 h2
  refine ⟨s3, ?_⟩
  simp only [extractOauthParams, reservedOauthParams, List.foldl_cons, List.foldl_nil]
  exact h3

theorem request_eq (s : OAuth1Session) (sg : Signer) (nonce : String)
    (ts : Int) (method url : String) (header_auth : Bool)
    (realm : Option String) (rk : ReqKwargs)
    (hsig : s.signature = some sg) :
    OAuth1Session.request s nonce ts method url header_auth realm rk =
      (injectOauth method header_auth
          (dictInsert
            (extractOauthParams (setOauthParams s sg nonce ts) (timeoutDefaulted rk)).1
            "oauth_signature"
            (sg.sign method url
              (extractOauthParams (setOauthParams s sg nonce ts) (timeoutDefaulted rk)).2))
          (extractOauthParams (setOauthParams s sg nonce ts) (timeoutDefaulted rk)).2).map
        (fun rk2 => { method := method, url := url, kwargs := rk2 }) := by
  unfold OAuth1Session.request
  rw [hsig]

/-- C10: a request with header_auth false, a method other than POST and
PUT, and a pre-encoded params string always raises AttributeError at the
final merge, because line 168 re-encoded params back into a string and
line 138 calls update on it; nothing is forwarded to the transport. -/
theorem c10_params_string_error (s : OAuth1Session) (sg : Signer)
    (nonce : String) (ts : Int) (method url : String) (realm : Option String)
    (rk : ReqKwargs) (qs : String)
    (hsig : s.signature = some sg)
    (hparams : rk.params = some (ParamsVal.str qs))
    (hpost : pyUpper method ≠ "POST") (hput : pyUpper method ≠ "PUT") :
    OAuth1Session.request s nonce ts method url false realm rk =
      Except.error (PyError.attributeError "str object has no attribute update") := by
  have h0 : (timeoutDefaulted rk).params = some (ParamsVal.str qs) := hparams
  obtain ⟨s3, h3⟩ := extract_str_shape (setOauthParams s sg nonce ts) _ qs h0
  rw [request_eq s sg nonce ts method url false realm rk hsig]
  unfold injectOauth
  rw [if_neg (by simp)]
  rw [if_neg (not_or.mpr ⟨hpost, hput⟩)]
  simp [h3]
  rfl

/-- Witness for C10: a GET with params given as the pre-encoded string
a=b raises at the merge step. -/
theorem c10_params_string_error_witness :
    ((OAuth1Session.init "key" "secret" none none none).signature =
      some HmacSha1Signature) ∧
    (({ params := some (ParamsVal.str "a=b") } : ReqKwargs).params =
      some (ParamsVal.str "a=b")) ∧
    (pyUpper "GET" ≠ "POST") ∧ (pyUpper "GET" ≠ "PUT") ∧
    OAuth1Session.request (OAuth1Session.init "key" "secret" none none none)
        "n" 0 "GET" "http://e/" false none
        { params := some (ParamsVal.str "a=b") } =
      Except.error (PyError.attributeError "str object has no attribute update") :=
  ⟨rfl, rfl, by decide, by decide,
    c10_params_string_error (OAuth1Session.init "key" "secret" none none none)
      HmacSha1Signature "n" 0 "GET" "http://e/" none
      { params := some (ParamsVal.str "a=b") } "a=b" rfl rfl
      (by decide) (by decide)⟩

/-- C7 counterexample: with header_auth true and a caller params dict
containing oauth_callback, the request completes but the outgoing query
parameters differ from the caller-supplied input (the reserved key was
extracted), so the non-chosen targets are not unmodified relative to the
caller input as the claim states. -/
theorem c7_counterexample :
    (∃ out, OAuth1Session.request (OAuth1Session.init "key" "secret" none none none)
        "n" 0 "GET" "http://e/" true none
        { params := some (ParamsVal.dict [("oauth_callback", "x"), ("a", "b")]) } =
      Except.ok out ∧
      out.kwargs.params = some (ParamsVal.dict [("a", "b")])) ∧
    some (ParamsVal.dict [("a", "b")]) ≠
      some (ParamsVal.dict [("oauth_callback", "x"), ("a", "b")]) := by
  exact ⟨⟨_, rfl, rfl⟩, by decide⟩

/-- C7 (amended): for every request that completes, exactly one injection
target receives the oauth parameter dict and the other two targets equal
the state after reserved-parameter extraction: with header_auth the
Authorization header is added; for POST and PUT the body receives the
parameters and the Content-Type header is defaulted to form-url-encoded
while the query parameters stay untouched; otherwise only the query
parameters receive them. The second part ties every completed request to
exactly this injection step applied after extraction. -/
theorem c7_amended :
    (∀ (method : String) (ha : Bool) (op2 : PyDict) (rk1 rk2 : ReqKwargs),
      injectOauth method ha op2 rk1 = Except.ok rk2 →
      ((ha = true ∧ rk2.params = rk1.params ∧ rk2.data = rk1.data ∧
          rk2.headers = some (dictInsert (rk1.headers.getD [])
            "Authorization" (getAuthHeader op2))) ∨
       (ha = false ∧ (pyUpper method = "POST" ∨ pyUpper method = "PUT") ∧
          rk2.params = rk1.params ∧
          rk2.headers = some (dictSetdefault (rk1.headers.getD [])
            "Content-Type" FORM_URLENCODED) ∧
          (∃ d, rk1.data.getD (ParamsVal.dict []) = ParamsVal.dict d ∧
            rk2.data = some (ParamsVal.dict (dictUpdate d op2)))) ∨
       (ha = false ∧ ¬(pyUpper method = "POST" ∨ pyUpper method = "PUT") ∧
          rk2.data = rk1.data ∧ rk2.headers = rk1.headers ∧
          (∃ d, rk1.params.getD (ParamsVal.dict []) = ParamsVal.dict d ∧
            rk2.params = some (ParamsVal.dict (dictUpdate d op2)))))) ∧
    (∀ (s : OAuth1Session) (sg : Signer) (nonce : String) (ts : Int)
        (method url : String) (ha : Bool) (realm : Option String)
        (rk : ReqKwargs) (out : PreparedRequest),
      s.signature = some sg →
      OAuth1Session.request s nonce ts method url ha realm rk = Except.ok out →
      out.method = method ∧ out.url = url ∧
      injectOauth method ha
          (dictInsert
            (extractOauthParams (setOauthParams s sg nonce ts) (timeoutDefaulted rk)).1
            "oauth_signature"
            (sg.sign method url
              (extractOauthParams (setOauthParams s sg nonce ts) (timeoutDefaulted rk)).2))
          (extractOauthParams (setOauthParams s sg nonce ts) (timeoutDefaulted rk)).2
        = Except.ok out.kwargs) := by
  constructor
  · intro method ha op2 rk1 rk2 h
    unfold injectOauth at h
    split at h
    next hha =>
      cases h
      exact Or.inl ⟨hha, rfl, rfl, rfl⟩
    next hha =>
      split at h
      next hm =>
        split at h
        next s hs => exact Except.noConfusion h
        next d hd =>
          cases h
          exact Or.inr (Or.inl ⟨by simpa using hha, hm, rfl, rfl, d, hd, rfl⟩)
      next hm =>
        split at h
        next s hs => exact Except.noConfusion h
        next d hd =>
          cases h
          exact Or.inr (Or.inr ⟨by simpa using hha, hm, rfl, rfl, d, hd, rfl⟩)
  · intro s sg nonce ts method url ha realm rk out hsig hreq
    rw [request_eq s sg nonce ts method url ha realm rk hsig] at hreq
    cases hI : injectOauth method ha
        (dictInsert
          (extractOauthParams (setOauthParams s sg nonce ts) (timeoutDefaulted rk)).1
          "oauth_signature"
          (sg.sign method url
            (extractOauthParams (setOauthParams s sg nonce ts) (timeoutDefaulted rk)).2))
        (extractOauthParams (setOauthParams s sg nonce ts) (timeoutDefaulted rk)).2 with
    | error e =>
      rw [hI] at hreq
      simp [Except.map] at hreq
    | ok rk2 =>
      rw [hI] at hreq
      simp only [Except.map] at hreq
      cases hreq
      exact ⟨rfl, rfl, by simp [hI]⟩

/-- C1 counterexample: body parameters supplied as a pre-encoded string
are never inspected, so a reserved key inside them is neither removed nor
moved into the protocol parameters (first two parts, at request level and
at the extraction step); and for a pre-encoded query string, a pair with
a blank value is silently dropped by the decode and re-encode round trip,
so the re-encoded string is not the original minus the reserved key
(third part: foo= is lost, the result is empty instead of foo=). -/
theorem c1_counterexample :
    (∃ out, OAuth1Session.request (OAuth1Session.init "key" "secret" none none none)
        "n" 0 "GET" "http://e/" true none
        { data := some (ParamsVal.str "oauth_verifier=v&x=y") } =
      Except.ok out ∧
      out.kwargs.data = some (ParamsVal.str "oauth_verifier=v&x=y")) ∧
    (parseOptionalParam "oauth_verifier" []
        { data := some (ParamsVal.str "oauth_verifier=v&x=y") } =
      ([], { data := some (ParamsVal.str "oauth_verifier=v&x=y") })) ∧
    ((parseOptionalParam "oauth_callback" []
        { params := some (ParamsVal.str "oauth_callback=x&foo=") }).2.params =
      some (ParamsVal.str "")) ∧
    ("" : String) ≠ "foo=" := by
  exact ⟨⟨_, rfl, rfl⟩, rfl, rfl, by decide⟩

/-- C1 (amended): for each reserved name, the extraction step of request
moves the reserved key out of structured query parameters (a), out of
structured body parameters (b), and out of a pre-encoded query string in
canonical form: there the key is removed and moved, and the re-encoded
string encodes exactly the original pairs minus that key, independent of
the key's position — stated up to a permutation of the remaining pairs,
because the re-encoding iterates a rebuilt dict whose iteration order is
implementation-defined in CPython 2 (hash order), while this model fixes
one order (c); a pre-encoded body string is left completely untouched
(d). -/
theorem c1_amended (p : String) (hp : p ∈ reservedOauthParams) :
    (∀ (op : PyDict) (rk : ReqKwargs) (d : PyDict),
      rk.params = some (ParamsVal.dict d) → rk.data = none →
      dictHasKey d p = true →
      parseOptionalParam p op rk =
        (dictInsert op p (dictGetD d p ""),
         { rk with params := some (ParamsVal.dict (dictPop d p)) })) ∧
    (∀ (op : PyDict) (rk : ReqKwargs) (d : PyDict),
      rk.params = none → rk.data = some (ParamsVal.dict d) →
      dictHasKey d p = true →
      parseOptionalParam p op rk =
        (dictInsert op p (dictGetD d p ""),
         { rk with data := some (ParamsVal.dict (dictPop d p)) })) ∧
    (∀ (op : PyDict) (rk : ReqKwargs) (pl : List (String × String)) (v : String),
      rk.params = some (ParamsVal.str (urlencode pl)) → rk.data = none →
      (pl.map Prod.fst).Nodup → SafePairs pl → (p, v) ∈ pl →
      ∃ pl', pl'.Perm (pl.filter (fun kv => kv.1 ≠ p)) ∧
        parseOptionalParam p op rk =
          (dictInsert op p v,
           { rk with params := some (ParamsVal.str (urlencode pl')) })) ∧
    (∀ (op : PyDict) (rk : ReqKwargs) (s : String),
      rk.params = none → rk.data = some (ParamsVal.str s) →
      parseOptionalParam p op rk = (op, rk)) := by
  refine ⟨?_, ?_, ?_, ?_⟩
  · intro op rk d hparams hdata hk
    simp [parseOptionalParam, hparams, hdata, hk]
  · intro op rk d hparams hdata hk
    simp [parseOptionalParam, hparams, hdata, hk]
  · intro op rk pl v hparams hdata hnd hsafe hmem
    have hrt : parse_qsl (urlencode pl) = pl := parse_urlencode pl hsafe
    have hne : urlencode pl ≠ "" := by
      intro he
      rw [he] at hrt
      have hplnil : pl = [] := by rw [← hrt]; rfl
      rw [hplnil] at hmem
      cases hmem
    have hd : dictFromPairs (parse_qsl (urlencode pl)) = pl := by
      rw [hrt]
      exact dictFromPairs_nodup pl hnd
    refine ⟨pl.filter (fun kv => kv.1 ≠ p), List.Perm.refl _, ?_⟩
    simp only [parseOptionalParam, hparams, hdata, hne, hd, dictPop,
      if_neg hne]
    simp [hd, dictHasKey_of_mem hmem, dictGetD_mem pl p v "" hnd hmem, dictPop]
  · intro op rk s hparams hdata
    simp [parseOptionalParam, hparams, hdata]
    rw [← hparams, ← hdata]

/-- Witness for the amended C1, part (c): the reserved key sits in the
middle of the canonical pre-encoded string a=1&oauth_callback=x&b=2; it
is moved into the protocol parameters and the re-encoded string encodes
some permutation of exactly the remaining pairs a=1 and b=2. -/
theorem c1_amended_witness :
    ("oauth_callback" ∈ reservedOauthParams) ∧
    urlencode [("a", "1"), ("oauth_callback", "x"), ("b", "2")] =
      "a=1&oauth_callback=x&b=2" ∧
    (∃ pl', pl'.Perm ([("a", "1"), ("oauth_callback", "x"), ("b", "2")].filter
        (fun kv => kv.1 ≠ "oauth_callback")) ∧
      parseOptionalParam "oauth_callback" []
          { params := some (ParamsVal.str
              (urlencode [("a", "1"), ("oauth_callback", "x"), ("b", "2")])) } =
        (dictInsert [] "oauth_callback" "x",
         { params := some (ParamsVal.str (urlencode pl')) })) :=
  ⟨by decide, by decide,
    (c1_amended "oauth_callback" (by decide)).2.2.1 []
      { params := some (ParamsVal.str
          (urlencode [("a", "1"), ("oauth_callback", "x"), ("b", "2")])) }
      [("a", "1"), ("oauth_callback", "x"), ("b", "2")] "x"
      rfl rfl (by decide) (by decide) (by decide)⟩

/-- Witness for the amended C7: a POST with header_auth false and empty
request options places the oauth parameters in the body, defaults the
Content-Type header, and leaves the query parameters untouched. -/
theorem c7_amended_witness :
    (injectOauth "post" false [("k", "v")] ({} : ReqKwargs) = Except.ok
      { headers := some [("Content-Type", "application/x-www-form-urlencoded")],
        data := some (ParamsVal.dict [("k", "v")]) }) ∧
    ((false = true ∧
        ({ headers := some [("Content-Type", "application/x-www-form-urlencoded")],
           data := some (ParamsVal.dict [("k", "v")]) } : ReqKwargs).params =
          ({} : ReqKwargs).params ∧
        ({ headers := some [("Content-Type", "application/x-www-form-urlencoded")],
           data := some (ParamsVal.dict [("k", "v")]) } : ReqKwargs).data =
          ({} : ReqKwargs).data ∧
        ({ headers := some [("Content-Type", "application/x-www-form-urlencoded")],
           data := some (ParamsVal.dict [("k", "v")]) } : ReqKwargs).headers =
          some (dictInsert (({} : ReqKwargs).headers.getD [])
            "Authorization" (getAuthHeader [("k", "v")]))) ∨
     (false = false ∧ (pyUpper "post" = "POST" ∨ pyUpper "post" = "PUT") ∧
        ({ headers := some [("Content-Type", "application/x-www-form-urlencoded")],
           data := some (ParamsVal.dict [("k", "v")]) } : ReqKwargs).params =
          ({} : ReqKwargs).params ∧
        ({ headers := some [("Content-Type", "application/x-www-form-urlencoded")],
           data := some (ParamsVal.dict [("k", "v")]) } : ReqKwargs).headers =
          some (dictSetdefault (({} : ReqKwargs).headers.getD [])
            "Content-Type" FORM_URLENCODED) ∧
        (∃ d, ({} : ReqKwargs).data.getD (ParamsVal.dict []) = ParamsVal.dict d ∧
          ({ headers := some [("Content-Type", "application/x-www-form-urlencoded")],
             data := some (ParamsVal.dict [("k", "v")]) } : ReqKwargs).data =
            some (ParamsVal.dict (dictUpdate d [("k", "v")])))) ∨
     (false = false ∧ ¬(pyUpper "post" = "POST" ∨ pyUpper "post" = "PUT") ∧
        ({ headers := some [("Content-Type", "application/x-www-form-urlencoded")],
           data := some (ParamsVal.dict [("k", "v")]) } : ReqKwargs).data =
          ({} : ReqKwargs).data ∧
        ({ headers := some [("Content-Type", "application/x-www-form-urlencoded")],
           data := some (ParamsVal.dict [("k", "v")]) } : ReqKwargs).headers =
          ({} : ReqKwargs).headers ∧
        (∃ d, ({} : ReqKwargs).params.getD (ParamsVal.dict []) = ParamsVal.dict d ∧
          ({ headers := some [("Content-Type", "application/x-www-form-urlencoded")],
             data := some (ParamsVal.dict [("k", "v")]) } : ReqKwargs).params =
            some (ParamsVal.dict (dictUpdate d [("k", "v")]))))) :=
  ⟨rfl,
    c7_amended.1 "post" false [("k", "v")] ({} : ReqKwargs)
      { headers := some [("Content-Type", "application/x-www-form-urlencoded")],
        data := some (ParamsVal.dict [("k", "v")]) } rfl⟩
